import Mathlib

/-!
Verification of the LifeLine notification scheduler core: the recurrence
engine front-end (`internal/rrule/rrule.go`), the due-detection queries of
the reminder and event repositories, the occurrence-advance logic of the
scheduler (`internal/scheduler/scheduler.go`), the todo backoff policy,
and the quiet-hours predicate (`internal/models/user_settings.go`).

Times are modelled after Go's `time.Time`: a value carries the wall-clock
reading (linearised to seconds, ignoring leap seconds, as Go does) together
with the zone offset it is tagged with.  The absolute instant is
`wall - offset`.  Database `TIMESTAMP` columns store wall-clock values
without zone information; the driver reads them back tagged as UTC
(offset 0), which is exactly the situation the comment in `ParseRRule`
describes.  Durations are in seconds.
-/

namespace LifeLine

/-- Model of Go `time.Time`: `wall` is the wall-clock reading in seconds
(the linearisation of the year/month/day/hour/minute/second fields), and
`offset` is the zone offset in seconds the value is tagged with.  Two
times have identical wall-clock fields iff their `wall` components are
equal. -/
structure GoTime where
  wall : Int
  offset : Int
  deriving Repr, DecidableEq

/-- The absolute instant (seconds since epoch) denoted by a `GoTime`;
Go's `After`/`Before`/`Sub`/`Equal` compare instants. -/
def GoTime.instant (t : GoTime) : Int := t.wall - t.offset

/-- Go `t.In(loc)`: same instant, re-tagged with offset `off`. -/
def GoTime.inZone (t : GoTime) (off : Int) : GoTime :=
  ⟨t.instant + off, off⟩

/-- Go `time.Date(y, mo, d, h, mi, s, ns, zone)` applied to wall fields
already linearised to `wall` seconds, in a zone of offset `off`. -/
def timeDate (wall off : Int) : GoTime := ⟨wall, off⟩

/-- Go `t.Add(d)` for a duration of `d` seconds. -/
def GoTime.addSecs (t : GoTime) (d : Int) : GoTime := ⟨t.wall + d, t.offset⟩

theorem GoTime.inZone_instant (t : GoTime) (off : Int) :
    (t.inZone off).instant = t.instant := by
  simp [GoTime.inZone, GoTime.instant]

/-! ## Database rows

Row types follow the table schemas after migrations 001-005
(`internal/database/migrations`): the `reminders` table
(`reminders_id, user_id, enabled, recurrence_rule, dtstart, messages,
remind_at, description, tags, notified_at, acknowledged_at,
last_message_id`), the `event` table
(`event_id, user_id, title, description, dtstart, duration,
next_occurrence, notification_minutes, recurrence_rule, tags,
notified_at`) and the `todo` table's scheduling columns.  Timestamp
columns hold wall-clock seconds (`Int`); nullable columns are `Option`. -/

structure ReminderRow where
  reminderId : Int
  userId : Int
  enabled : Bool
  recurrenceRule : String
  dtstart : Option Int
  messages : String
  remindAt : Option Int
  notifiedAt : Option Int
  acknowledgedAt : Option Int
  lastMessageId : Option Int
  deriving Repr, DecidableEq

structure EventRow where
  eventId : Int
  userId : Int
  title : String
  dtstart : Option Int
  duration : Int
  nextOccurrence : Option Int
  notificationMinutes : Int
  recurrenceRule : String
  notifiedAt : Option Int
  deriving Repr, DecidableEq

structure TodoRow where
  todoId : Int
  userId : Int
  title : String
  priority : Int
  dueTime : Option Int
  completedAt : Option Int
  lastNotifiedAt : Option Int
  deriving Repr, DecidableEq

/-! ## ReminderRepository (src/unnamed/part_004)

Each SQL statement of the reminder repository is embedded as a predicate
on rows (for `SELECT ... WHERE`) or a row transformer (for
`UPDATE ... SET`).  The query parameter `untilT` is the `now` passed by the
scheduler. -/

/-- The `WHERE` clause of `ReminderRepository.GetPendingReminders`
(part_004 lines 137-147): `enabled = true AND remind_at IS NOT NULL AND
remind_at <= $1 AND acknowledged_at IS NULL AND (notified_at IS NULL OR
notified_at <= $2)` with `$1 = untilT` and `$2 = untilT - 1 minute`. -/
def reminderPending (untilT : Int) (r : ReminderRow) : Bool :=
  r.enabled &&
  (match r.remindAt with
   | none => false
   | some ra => decide (ra ≤ untilT)) &&
  r.acknowledgedAt.isNone &&
  (match r.notifiedAt with
   | none => true
   | some na => decide (na ≤ untilT - 60))

/-- `ReminderRepository.GetPendingReminders` as a filter over the table's
rows. -/
def getPendingReminders (untilT : Int) (rows : List ReminderRow) :
    List ReminderRow :=
  rows.filter (reminderPending untilT)

/-- `ReminderRepository.UpdateRemindAt` (part_004 lines 90-97):
`UPDATE reminders SET remind_at = $1, notified_at = NULL,
acknowledged_at = NULL, last_message_id = NULL`. -/
def updateRemindAt (v : Option Int) (r : ReminderRow) : ReminderRow :=
  { r with remindAt := v, notifiedAt := none, acknowledgedAt := none,
           lastMessageId := none }

/-- `ReminderRepository.SetNotifiedAt` (part_004 lines 99-105). -/
def setNotifiedAt (v : Option Int) (r : ReminderRow) : ReminderRow :=
  { r with notifiedAt := v }

/-- `ReminderRepository.SetLastMessageID` (part_004 lines 107-113). -/
def setLastMessageID (m : Int) (r : ReminderRow) : ReminderRow :=
  { r with lastMessageId := some m }

/-- `ReminderRepository.SetAcknowledgedAt` (part_004 lines 115-121). -/
def setAcknowledgedAt (v : Option Int) (r : ReminderRow) : ReminderRow :=
  { r with acknowledgedAt := v }

/-- `ReminderRepository.SetEnabled` (part_004 lines 165-171). -/
def setEnabled (b : Bool) (r : ReminderRow) : ReminderRow :=
  { r with enabled := b }

/-! ## RecurrenceEngine (src/internal/rrule/rrule.go)

The Go code delegates rule parsing and occurrence search to the external
`teambition/rrule-go` library, an external collaborator of this core.  The
repository's own logic — stripping the `RRULE:` tag, reinterpreting the
anchor's wall-clock fields in the deployment's local zone, the `After`
call of `NextOccurrence`, and the capped strict-search loop of
`NextOccurrenceStrict` — is embedded directly from `rrule.go`.  The
library's behaviour behind that interface is modelled from the spec
(sections 4.1 and 6). -/

/-- Modelled from the spec: the recurrence frequencies of the rule-string
format `FREQ=<HOURLY|DAILY|WEEKLY|MONTHLY|YEARLY>`.  Only the
fixed-length frequencies are modelled; MONTHLY/YEARLY (calendar
arithmetic) and the BYxxx/UNTIL constraint lists are outside the model
and make parsing report an error. -/
inductive Freq where
  | hourly
  | daily
  | weekly
  deriving Repr, DecidableEq

/-- Period length of a frequency, in seconds. -/
def Freq.secs : Freq → Int
  | .hourly => 3600
  | .daily => 86400
  | .weekly => 604800

/-- Modelled from the spec: the parsed fields of a rule string.
`interval` defaults to 1; `count = 0` means no COUNT bound (mirroring the
Go zero value of the library's option struct). -/
structure ROption where
  freq : Freq
  interval : Nat
  count : Nat
  deriving Repr, DecidableEq

/-- Split a character list at every occurrence of `sep` (the character
analogue of `strings.Split`). -/
def splitOnChar (sep : Char) : List Char → List (List Char)
  | [] => [[]]
  | c :: rest =>
    match splitOnChar sep rest with
    | [] => [[c]]
    | g :: gs => if c = sep then [] :: g :: gs else (c :: g) :: gs

/-- Digits-only decimal reader used by the rule-string model. -/
def readNat (cs : List Char) : Option Nat :=
  if cs = [] then none
  else if cs.all Char.isDigit then
    some (cs.foldl (fun a c => a * 10 + (c.toNat - 48)) 0)
  else none

/-- Modelled from the spec: parse one `KEY=VALUE` item of a rule string
into an accumulating option record. -/
def applyRulePart (acc : Option Freq × Nat × Nat) (part : List Char) :
    Except String (Option Freq × Nat × Nat) :=
  match splitOnChar '=' part with
  | [k, v] =>
    if k = "FREQ".data then
      if v = "HOURLY".data then Except.ok (some Freq.hourly, acc.2.1, acc.2.2)
      else if v = "DAILY".data then Except.ok (some Freq.daily, acc.2.1, acc.2.2)
      else if v = "WEEKLY".data then Except.ok (some Freq.weekly, acc.2.1, acc.2.2)
      else Except.error "unsupported FREQ value"
    else if k = "INTERVAL".data then
      match readNat v with
      | some n => Except.ok (acc.1, max n 1, acc.2.2)
      | none => Except.error "malformed INTERVAL"
    else if k = "COUNT".data then
      match readNat v with
      | some n => Except.ok (acc.1, acc.2.1, n)
      | none => Except.error "malformed COUNT"
    else Except.error "unsupported rule part"
  | _ => Except.error "malformed rule part"

/-- Modelled from the spec: parse a rule string of the persisted format
`FREQ=...;INTERVAL=n;COUNT=n` (the library's `StrToROption`). -/
def parseROption (cs : List Char) : Except String ROption :=
  match (splitOnChar ';' cs).foldlM applyRulePart (none, 1, 0) with
  | Except.error e => Except.error e
  | Except.ok (none, _, _) => Except.error "missing FREQ"
  | Except.ok (some f, i, c) => Except.ok ⟨f, i, c⟩

/-- A compiled rule: the parsed options plus the phase-fixing anchor
(`opt.Dtstart` of the library), already reinterpreted into the local
zone by `ParseRRule`. -/
structure RRule where
  opt : ROption
  dtstart : GoTime
  deriving Repr, DecidableEq

/-- Seconds between consecutive occurrences of a rule. -/
def RRule.step (r : RRule) : Int := (r.opt.interval : Int) * r.opt.freq.secs

/-- The `k`-th occurrence of a rule, returned (as the library does) in
the anchor's zone. -/
def RRule.occurrence (r : RRule) (k : Int) : GoTime :=
  ⟨r.dtstart.instant + k * r.step + r.dtstart.offset, r.dtstart.offset⟩

/-- Modelled from the spec: the library's `rule.After(t, false)` — the
earliest occurrence strictly after `t`, or `none` when the COUNT bound is
exhausted (the Go code maps the library's zero time to `nil`). -/
def ruleAfter (r : RRule) (t : GoTime) : Option GoTime :=
  let d := r.dtstart.instant
  let k : Int := if t.instant < d then 0 else (t.instant - d) / r.step + 1
  if r.opt.count ≠ 0 ∧ (r.opt.count : Int) ≤ k then none
  else some (r.occurrence k)

/-- Drop a leading `RRULE:` tag (`strings.TrimPrefix` in the source). -/
def stripRRuleTag (cs : List Char) : List Char :=
  if ("RRULE:".data).isPrefixOf cs then cs.drop 6 else cs

/-- `ParseRRule` (rrule.go lines 12-30): strip the tag, parse the rule
string, and reinterpret the anchor's wall-clock fields in the local zone
(`time.Date(dtstart.Year(), ..., time.Local)`); `loc` is the deployment
local-zone offset in seconds. -/
def ParseRRule (loc : Int) (ruleStr : String) (dtstart : GoTime) :
    Except String RRule :=
  match parseROption (stripRRuleTag ruleStr.data) with
  | Except.error e => Except.error e
  | Except.ok opt => Except.ok ⟨opt, timeDate dtstart.wall loc⟩

/-- `NextOccurrence` (rrule.go lines 34-45): parse, then
`rule.After(after, false)`, mapping the zero time to `none`. -/
def NextOccurrence (loc : Int) (ruleStr : String) (dtstart afterT : GoTime) :
    Except String (Option GoTime) :=
  match ParseRRule loc ruleStr dtstart with
  | Except.error e => Except.error e
  | Except.ok rule => Except.ok (ruleAfter rule afterT)

/-- The bounded forward-search loop of `NextOccurrenceStrict`
(rrule.go lines 59-72), with the remaining iteration budget as fuel:
`for i := 0; i < 1000; i++` and `return nil, nil` once the budget is
spent. -/
def strictSearch (rule : RRule) (afterLocal : GoTime) :
    Nat → GoTime → Option GoTime
  | 0, _ => none
  | fuel + 1, current =>
    match ruleAfter rule current with
    | none => none
    | some next =>
      if afterLocal.instant < next.instant then some next
      else strictSearch rule afterLocal fuel (next.addSecs 1)

/-- `NextOccurrenceStrict` (rrule.go lines 49-73): parse, normalise
`after` to the local zone, then run the capped search. -/
def NextOccurrenceStrict (loc : Int) (ruleStr : String)
    (dtstart afterT : GoTime) : Except String (Option GoTime) :=
  match ParseRRule loc ruleStr dtstart with
  | Except.error e => Except.error e
  | Except.ok rule =>
    let afterLocal := afterT.inZone loc
    Except.ok (strictSearch rule afterLocal 1000 afterLocal)

theorem strictSearch_some_gt (rule : RRule) (afterLocal : GoTime) :
    ∀ (fuel : Nat) (current t : GoTime),
      strictSearch rule afterLocal fuel current = some t →
      afterLocal.instant < t.instant := by
  intro fuel
  induction fuel with
  | zero => intro current t h; simp [strictSearch] at h
  | succ n ih =>
    intro current t h
    unfold strictSearch at h
    split at h
    · exact absurd h (by simp)
    · split at h
      · rename_i hlt
        cases h
        exact hlt
      · exact ih _ _ h

/-! ## EventRepository (src/unnamed/part_002) and the scheduler's event
passes (src/unnamed/part_001)

The SQL `WHERE` clauses become predicates over `EventRow`; the `UPDATE`
statements become row transformers.  Note that the
`UpdateNextOccurrence` statement of part_002 sets only the
`next_occurrence` column. -/

/-- The `WHERE` clause of `EventRepository.GetPendingNotifications`
(part_002 lines 141-157): `next_occurrence IS NOT NULL AND
next_occurrence - (notification_minutes || ' minutes')::interval <=
NOW() AND next_occurrence > NOW()`. -/
def eventPendingNotification (now : Int) (e : EventRow) : Bool :=
  match e.nextOccurrence with
  | none => false
  | some n =>
    decide (n - e.notificationMinutes * 60 ≤ now) && decide (now < n)

/-- `EventRepository.GetPendingNotifications` as a filter over the
table's rows. -/
def getPendingNotificationRows (now : Int) (rows : List EventRow) :
    List EventRow :=
  rows.filter (eventPendingNotification now)

/-- The `WHERE` clause of `EventRepository.GetPassedEvents` (part_002
lines 116-131): `next_occurrence IS NOT NULL AND next_occurrence <= $1`. -/
def eventPassed (before : Int) (e : EventRow) : Bool :=
  match e.nextOccurrence with
  | none => false
  | some n => decide (n ≤ before)

/-- `EventRepository.UpdateNextOccurrence` (part_002 lines 108-114):
`UPDATE event SET next_occurrence = $1 WHERE event_id = $2` — the
statement writes no other column. -/
def updateNextOccurrence (v : Option Int) (e : EventRow) : EventRow :=
  { e with nextOccurrence := v }

/-- One event of the rollover pass `Scheduler.updateRecurringEvents`
(part_001 lines 204-223): a non-recurring event (empty rule or null
dtstart) has its `next_occurrence` cleared; a recurring one gets
`NextOccurrence(rule, dtstart, now)`, with a rule-evaluation error also
clearing `next_occurrence`.  The dtstart read from the database carries
zone tag 0. -/
def rolloverEvent (loc : Int) (now : GoTime) (e : EventRow) : EventRow :=
  match e.dtstart with
  | none => updateNextOccurrence none e
  | some d =>
    if e.recurrenceRule = "" then updateNextOccurrence none e
    else
      match NextOccurrence loc e.recurrenceRule (timeDate d 0) now with
      | Except.error _ => updateNextOccurrence none e
      | Except.ok next => updateNextOccurrence (next.map GoTime.wall) e

/-- `Scheduler.updateRecurringEvents` (part_001 lines 196-224) over the
whole table: every row selected by `GetPassedEvents` is rolled over. -/
def updateRecurringEvents (loc : Int) (now : GoTime)
    (rows : List EventRow) : List EventRow :=
  rows.map (fun e => if eventPassed now.wall e then rolloverEvent loc now e else e)

/-! ## Scheduler reminder dispatch and the acknowledge handler -/

/-- The persisted effect of one successful reminder dispatch in
`Scheduler.checkReminders` (part_001 lines 136-137):
`SetLastMessageID(id, sentMsg.MessageID)` then
`SetNotifiedAt(id, &now)`. -/
def reminderDispatchUpdate (now msgId : Int) (r : ReminderRow) :
    ReminderRow :=
  setNotifiedAt (some now) (setLastMessageID msgId r)

/-- The persisted effect of `Handlers.handleReminderAcknowledge`
(src/internal/bot/handlers/reminder.go lines 127-154):
`SetAcknowledgedAt(now)`, then for a recurring reminder with a non-null
dtstart compute `NextOccurrenceStrict(rule, dtstart, now)` — on success
`UpdateRemindAt(next)` (which clears `notified_at`, `acknowledged_at`
and `last_message_id`), on error or no occurrence `SetEnabled(false)`;
a non-recurring reminder is disabled. -/
def acknowledgeReminder (loc : Int) (now : GoTime) (r : ReminderRow) :
    ReminderRow :=
  let r1 := setAcknowledgedAt (some now.wall) r
  match r.dtstart with
  | none => setEnabled false r1
  | some d =>
    if r.recurrenceRule = "" then setEnabled false r1
    else
      match NextOccurrenceStrict loc r.recurrenceRule (timeDate d 0) now with
      | Except.error _ => setEnabled false r1
      | Except.ok none => setEnabled false r1
      | Except.ok (some next) => updateRemindAt (some next.wall) r1

/-- The reminder row built by `Handlers.CreateReminder`
(src/internal/bot/handlers/reminder.go lines 161-195) before insertion:
`remind_at` is the dtstart when it is in the future or the rule is
empty, otherwise the next occurrence after `now`; when the rule has no
further occurrence, `remind_at` stays null and the reminder is disabled;
a rule-parse error falls back to the dtstart. -/
def createReminder (loc : Int) (now : GoTime) (userId : Int)
    (msg : String) (dtstart : Option GoTime) (recurrenceRule : String) :
    ReminderRow :=
  let base : ReminderRow :=
    ⟨0, userId, true, recurrenceRule, dtstart.map GoTime.wall, msg,
     none, none, none, none⟩
  match dtstart with
  | none => base
  | some d =>
    if recurrenceRule = "" then { base with remindAt := some d.wall }
    else if now.instant < d.instant then { base with remindAt := some d.wall }
    else
      match NextOccurrence loc recurrenceRule d now with
      | Except.error _ => { base with remindAt := some d.wall }
      | Except.ok (some next) => { base with remindAt := some next.wall }
      | Except.ok none => { base with enabled := false }

/-! ## Quiet hours (src/internal/models/user_settings.go) -/

/-- `parseTimeString` (user_settings.go lines 116-122): parse an
`HH:MM` clock string with Go's `time.Parse("15:04", s)` — one or two
digit hour below 24, two-digit minute below 60 — returning `(0, 0)` on
any parse error. -/
def parseTimeString (s : String) : Int × Int :=
  match s.data with
  | [h1, ':', m1, m2] =>
    if h1.isDigit ∧ m1.isDigit ∧ m2.isDigit then
      let h : Int := (h1.toNat : Int) - 48
      let m : Int := ((m1.toNat : Int) - 48) * 10 + ((m2.toNat : Int) - 48)
      if m < 60 then (h, m) else (0, 0)
    else (0, 0)
  | [h1, h2, ':', m1, m2] =>
    if h1.isDigit ∧ h2.isDigit ∧ m1.isDigit ∧ m2.isDigit then
      let h : Int := ((h1.toNat : Int) - 48) * 10 + ((h2.toNat : Int) - 48)
      let m : Int := ((m1.toNat : Int) - 48) * 10 + ((m2.toNat : Int) - 48)
      if h < 24 ∧ m < 60 then (h, m) else (0, 0)
    else (0, 0)
  | _ => (0, 0)

/-- Minutes since local midnight, `localTime.Hour()*60 +
localTime.Minute()` of a wall-clock reading. -/
def minutesOfDay (wall : Int) : Int := wall % 86400 / 60

/-- `UserSettings.IsQuietHours` (user_settings.go lines 90-113).
`tzOff` is the offset of the user's resolved timezone (the
`time.LoadLocation` collaborator). -/
def IsQuietHours (tzOff : Int) (quietStartStr quietEndStr : String)
    (t : GoTime) : Bool :=
  let localTime := t.inZone tzOff
  let currentMinutes := minutesOfDay localTime.wall
  let s := parseTimeString quietStartStr
  let e := parseTimeString quietEndStr
  let startMinutes := s.1 * 60 + s.2
  let endMinutes := e.1 * 60 + e.2
  if endMinutes < startMinutes then
    decide (startMinutes ≤ currentMinutes) ||
      decide (currentMinutes < endMinutes)
  else
    decide (startMinutes ≤ currentMinutes) &&
      decide (currentMinutes < endMinutes)

/-! ## Todo backoff policy (src/unnamed/part_001 lines 334-399)

`shouldNotifyTodo` multiplies the base interval (an integer number of
minutes) by a `float64` multiplier and truncates.  The float64
arithmetic is reproduced exactly: a float is represented by the dyadic
pair `(n, k)` standing for `n / 2^k`, and `round53` is IEEE-754
round-to-nearest-even at 53 significant bits (overflow and subnormals
cannot occur at these magnitudes). -/

/-- Number of right-shifts needed to bring `m` under `2^53` (the excess
significand bits), computed with explicit fuel so it reduces inside the
kernel; 1100 levels cover every magnitude a finite binary64 can reach. -/
def excessBits : Nat → Nat → Nat
  | 0, _ => 0
  | fuel + 1, m => if m < 2 ^ 53 then 0 else excessBits fuel (m / 2) + 1

/-- Round the dyadic value `n / 2^k` to 53 significant bits,
round-to-nearest ties-to-even. -/
def round53 (n k : Nat) : Nat × Nat :=
  let s := excessBits 1100 n
  if s = 0 then (n, k)
  else
    let h := n >>> s
    let r := n % 2 ^ s
    let half := 2 ^ (s - 1)
    let h' := if half < r then h + 1 else if r < half then h else h + h % 2
    if k ≤ s then (h' <<< (s - k), 0) else (h', k - s)

/-- Go's `float64(i)` conversion of a non-negative integer. -/
def f64ofNat (b : Nat) : Nat × Nat := round53 b 0

/-- IEEE-754 binary64 multiplication of non-negative values. -/
def f64mul (a b : Nat × Nat) : Nat × Nat := round53 (a.1 * b.1) (a.2 + b.2)

/-- Go's `int(x)` for a non-negative float64: truncation toward zero. -/
def f64truncNat (a : Nat × Nat) : Nat := a.1 >>> a.2

/-- `getPriorityMultiplier` (part_001 lines 384-399); each Go float64
literal is written as its exact binary64 value (`0.7` is
`6305039478318694 / 2^53`; the others are exactly representable). -/
def getPriorityMultiplier (priority : Int) : Nat × Nat :=
  if priority = 5 then (1, 1)
  else if priority = 4 then (6305039478318694, 53)
  else if priority = 3 then (1, 0)
  else if priority = 2 then (3, 1)
  else if priority = 1 then (2, 0)
  else (1, 0)

/-- The effective re-notification interval in minutes
(part_001 lines 367-372): `int(float64(base) * multiplier)`, floored at
one minute. -/
def intervalMinutes (base priority : Int) : Nat :=
  let m0 := f64truncNat
    (f64mul (f64ofNat base.toNat) (getPriorityMultiplier priority))
  if m0 < 1 then 1 else m0

/-- The tail of `shouldNotifyTodo` after the urgency zone and its base
interval have been selected (part_001 lines 363-381): zero or negative
base disables the zone; otherwise the todo is eligible when never
notified or when the effective interval has elapsed. -/
def todoEligibleWithBase (now : Int) (todo : TodoRow) (zone : String)
    (base : Int) : Bool × String :=
  if base ≤ 0 then (false, "")
  else
    let interval : Int := (intervalMinutes base todo.priority : Int) * 60
    match todo.lastNotifiedAt with
    | none => (true, zone)
    | some last => (decide (interval ≤ now - last), zone)

/-- The per-zone base intervals of `models.UserSettings`
(user_settings.go lines 9-14), in minutes. -/
structure ReminderIntervals where
  overdue : Int
  urgent : Int
  soon : Int
  normal : Int
  deriving Repr, DecidableEq

/-- `Scheduler.shouldNotifyTodo` (part_001 lines 335-381): bucket
time-to-due into overdue (negative) / urgent (under 2 h) / soon (under
24 h) / normal (under 7 d), everything farther out being excluded, then
apply the priority-weighted backoff. -/
def shouldNotifyTodo (now : Int) (todo : TodoRow)
    (ri : ReminderIntervals) : Bool × String :=
  match todo.dueTime with
  | none => (false, "")
  | some due =>
    let timeUntilDue := due - now
    if timeUntilDue < 0 then
      todoEligibleWithBase now todo "overdue" ri.overdue
    else if timeUntilDue < 7200 then
      todoEligibleWithBase now todo "urgent" ri.urgent
    else if timeUntilDue < 86400 then
      todoEligibleWithBase now todo "soon" ri.soon
    else if timeUntilDue < 604800 then
      todoEligibleWithBase now todo "normal" ri.normal
    else (false, "")

end LifeLine

namespace LifeLine

/-- Claim C5: `NextOccurrenceStrict` terminates through its
1000-iteration fuel; any timestamp it returns is strictly after `after`;
and when the iteration budget is exhausted the search yields no
occurrence rather than an error. -/
theorem strict_next_occurrence_cap_and_strictness :
    (∀ (loc : Int) (ruleStr : String) (dtstart afterT t : GoTime),
        NextOccurrenceStrict loc ruleStr dtstart afterT =
          Except.ok (some t) →
        afterT.instant < t.instant) ∧
    (∀ (rule : RRule) (afterLocal current : GoTime),
        strictSearch rule afterLocal 0 current = none) := by
  constructor
  · intro loc ruleStr dtstart afterT t h
    unfold NextOccurrenceStrict at h
    rcases hP : ParseRRule loc ruleStr dtstart with e | rule <;> rw [hP] at h
    · exact absurd h (by simp)
    · simp only [Except.ok.injEq] at h
      have := strictSearch_some_gt rule (afterT.inZone loc) 1000 _ t h
      rwa [GoTime.inZone_instant] at this
  · intro rule afterLocal current
    rfl

/-- Witness for C5: a daily rule anchored at wall second 0, queried five
hours after the epoch in zone 0, yields the occurrence at instant 86400,
which is strictly after the query time. -/
theorem strict_next_occurrence_cap_and_strictness_witness :
    NextOccurrenceStrict 0 "FREQ=DAILY" ⟨0, 0⟩ ⟨18000, 0⟩ =
      Except.ok (some ⟨86400, 0⟩) ∧
    (18000 : Int) < 86400 := by
  refine ⟨rfl, ?_⟩
  exact strict_next_occurrence_cap_and_strictness.1 0 "FREQ=DAILY"
    ⟨0, 0⟩ ⟨18000, 0⟩ ⟨86400, 0⟩ rfl

/-- Claim C8: the engine reinterprets the anchor's wall-clock fields in
the deployment local zone, so two anchors with identical wall-clock
fields but different zone tags give identical results from both
`NextOccurrence` and `NextOccurrenceStrict`, for every rule and query
time. -/
theorem next_occurrence_anchor_zone_independent
    (loc : Int) (ruleStr : String) (a1 a2 afterT : GoTime)
    (h : a1.wall = a2.wall) :
    NextOccurrence loc ruleStr a1 afterT =
      NextOccurrence loc ruleStr a2 afterT ∧
    NextOccurrenceStrict loc ruleStr a1 afterT =
      NextOccurrenceStrict loc ruleStr a2 afterT := by
  have hp : ParseRRule loc ruleStr a1 = ParseRRule loc ruleStr a2 := by
    unfold ParseRRule
    rw [timeDate, timeDate, h]
  constructor
  · unfold NextOccurrence
    rw [hp]
  · unfold NextOccurrenceStrict
    rw [hp]

/-- Witness for C8: the same wall-clock anchor tagged UTC and tagged
UTC+8 produce the same strict next occurrence. -/
theorem next_occurrence_anchor_zone_independent_witness :
    ((⟨32400, 0⟩ : GoTime).wall = (⟨32400, 28800⟩ : GoTime).wall) ∧
    NextOccurrenceStrict 28800 "FREQ=DAILY" ⟨32400, 0⟩ ⟨120000, 0⟩ =
      NextOccurrenceStrict 28800 "FREQ=DAILY" ⟨32400, 28800⟩ ⟨120000, 0⟩ := by
  refine ⟨rfl, ?_⟩
  exact (next_occurrence_anchor_zone_independent 28800 "FREQ=DAILY"
    ⟨32400, 0⟩ ⟨32400, 28800⟩ ⟨120000, 0⟩ rfl).2

/-- Claim C1 (counter-evidence): at `now = 0`, an event whose next
occurrence is ten minutes away, with a 30-minute notification lead and
`notified_at` already set, is still returned by
`GetPendingNotifications`: the query filters only on the window
`next_occurrence - lead <= now < next_occurrence` and never consults
`notified_at`, so an already-notified occurrence is returned again on
every cycle. -/
theorem event_pending_query_returns_already_notified :
    eventPendingNotification 0
        ⟨1, 7, "standup", some (-604200), 30, some 600, 30,
         "FREQ=WEEKLY", some (-60)⟩ = true ∧
    getPendingNotificationRows 0
        [⟨1, 7, "standup", some (-604200), 30, some 600, 30,
          "FREQ=WEEKLY", some (-60)⟩] =
      [⟨1, 7, "standup", some (-604200), 30, some 600, 30,
        "FREQ=WEEKLY", some (-60)⟩] ∧
    (⟨1, 7, "standup", some (-604200), 30, some 600, 30,
      "FREQ=WEEKLY", some (-60)⟩ : EventRow).notifiedAt ≠ none := by
  refine ⟨rfl, rfl, by simp⟩

/-- Claim C2 (counter-evidence, with the holding parts verified): a weekly
recurring event whose occurrence passed ten minutes ago is selected by
the rollover pass and advanced one week forward, and a passed one-shot
event has its `next_occurrence` cleared — but in both cases
`notified_at` is NOT cleared, because `UpdateNextOccurrence` writes only
the `next_occurrence` column. -/
theorem rollover_advances_but_keeps_notified_at :
    eventPassed 1000200
        ⟨1, 7, "w", some 0, 30, some 999600, 30, "FREQ=WEEKLY",
         some 999000⟩ = true ∧
    rolloverEvent 0 ⟨1000200, 0⟩
        ⟨1, 7, "w", some 0, 30, some 999600, 30, "FREQ=WEEKLY",
         some 999000⟩ =
      ⟨1, 7, "w", some 0, 30, some 1209600, 30, "FREQ=WEEKLY",
       some 999000⟩ ∧
    rolloverEvent 0 ⟨1000200, 0⟩
        ⟨2, 7, "o", some 0, 30, some 999600, 30, "", some 999000⟩ =
      ⟨2, 7, "o", some 0, 30, none, 30, "", some 999000⟩ ∧
    (some 999000 : Option Int) ≠ none := by
  refine ⟨rfl, rfl, rfl, by simp⟩

/-- Claim C9: a successful reminder dispatch persists only
`notified_at = now` and the new message handle; `enabled`, `remind_at`,
`acknowledged_at`, `dtstart` and the rule are untouched, and a reminder
that was due and unacknowledged is due again at every time from one
cooldown after the dispatch. -/
theorem dispatch_frame_and_renag
    (now msgId t : Int) (r : ReminderRow)
    (hp : reminderPending now r = true) (ht : now + 60 ≤ t) :
    (reminderDispatchUpdate now msgId r).enabled = r.enabled ∧
    (reminderDispatchUpdate now msgId r).remindAt = r.remindAt ∧
    (reminderDispatchUpdate now msgId r).acknowledgedAt =
      r.acknowledgedAt ∧
    (reminderDispatchUpdate now msgId r).dtstart = r.dtstart ∧
    (reminderDispatchUpdate now msgId r).recurrenceRule =
      r.recurrenceRule ∧
    (reminderDispatchUpdate now msgId r).notifiedAt = some now ∧
    (reminderDispatchUpdate now msgId r).lastMessageId = some msgId ∧
    reminderPending t (reminderDispatchUpdate now msgId r) = true := by
  refine ⟨rfl, rfl, rfl, rfl, rfl, rfl, rfl, ?_⟩
  simp only [reminderPending, reminderDispatchUpdate, setNotifiedAt,
    setLastMessageID] at hp ⊢
  rcases hra : r.remindAt with _ | ra <;> (simp_all; try omega)

/-- Witness for C9: a one-shot enabled reminder due at second 100,
dispatched at second 100, is pending again at second 200. -/
theorem dispatch_frame_and_renag_witness :
    reminderPending 100
        ⟨1, 9, true, "", none, "call", some 100, none, none, none⟩ =
      true ∧
    (100 : Int) + 60 ≤ 200 ∧
    reminderPending 200
        (reminderDispatchUpdate 100 5
          ⟨1, 9, true, "", none, "call", some 100, none, none, none⟩) =
      true := by
  refine ⟨by decide, by decide, ?_⟩
  exact (dispatch_frame_and_renag 100 5 200
    ⟨1, 9, true, "", none, "call", some 100, none, none, none⟩
    (by decide) (by decide)).2.2.2.2.2.2.2

/-- Claim C4: acknowledging a recurring reminder with a dtstart computes
the strict next occurrence; on success `remind_at` becomes that time and
`notified_at`, `acknowledged_at` and the message handle are cleared; on
no-occurrence or evaluation error, and for non-recurring reminders, the
reminder is disabled.  The last conjunct is the spec's example: rule
`FREQ=DAILY`, anchor 2024-01-01 09:00 local (wall second 1704099600,
zone offset 28800), acknowledged 2024-01-02 09:05 local, yields
`remind_at` 2024-01-03 09:00 local (wall second 1704272400). -/
theorem acknowledge_transition_characterisation :
    (∀ (loc : Int) (now : GoTime) (r : ReminderRow) (d : Int)
        (next : GoTime),
        r.dtstart = some d → r.recurrenceRule ≠ "" →
        NextOccurrenceStrict loc r.recurrenceRule (timeDate d 0) now =
          Except.ok (some next) →
        acknowledgeReminder loc now r =
          { r with remindAt := some next.wall, notifiedAt := none,
                   acknowledgedAt := none, lastMessageId := none }) ∧
    (∀ (loc : Int) (now : GoTime) (r : ReminderRow) (d : Int),
        r.dtstart = some d → r.recurrenceRule ≠ "" →
        (NextOccurrenceStrict loc r.recurrenceRule (timeDate d 0) now =
            Except.ok none ∨
          ∃ e, NextOccurrenceStrict loc r.recurrenceRule (timeDate d 0)
            now = Except.error e) →
        (acknowledgeReminder loc now r).enabled = false) ∧
    (∀ (loc : Int) (now : GoTime) (r : ReminderRow),
        r.recurrenceRule = "" ∨ r.dtstart = none →
        (acknowledgeReminder loc now r).enabled = false) ∧
    acknowledgeReminder 28800 ⟨1704186300, 28800⟩
        ⟨3, 9, true, "FREQ=DAILY", some 1704099600, "daily",
         some 1704186300, some 1704186000, none, some 77⟩ =
      ⟨3, 9, true, "FREQ=DAILY", some 1704099600, "daily",
       some 1704272400, none, none, none⟩ := by
  refine ⟨?_, ?_, ?_, rfl⟩
  · intro loc now r d next hd hrule hnext
    unfold acknowledgeReminder
    rw [hd]
    simp only [if_neg hrule, hnext]
    simp [updateRemindAt, setAcknowledgedAt, hd]
  · intro loc now r d hd hrule hno
    unfold acknowledgeReminder
    rw [hd]
    simp only [if_neg hrule]
    rcases hno with hn | ⟨e, he⟩
    · rw [hn]
      rfl
    · rw [he]
      rfl
  · intro loc now r hor
    unfold acknowledgeReminder
    rcases hd : r.dtstart with _ | d
    · rfl
    · rcases hor with hrule | hnone
      · rw [hrule]
        rfl
      · simp [hd] at hnone

/-- Witness for C4: acknowledging a daily reminder anchored at wall
second 0 (zone 0) at instant 30000 reschedules it to second 86400 with
the notification state cleared. -/
theorem acknowledge_transition_characterisation_witness :
    ((⟨1, 2, true, "FREQ=DAILY", some 0, "x", some 0, none, none,
        none⟩ : ReminderRow).dtstart = some 0) ∧
    ((⟨1, 2, true, "FREQ=DAILY", some 0, "x", some 0, none, none,
        none⟩ : ReminderRow).recurrenceRule ≠ "") ∧
    acknowledgeReminder 0 ⟨30000, 0⟩
        ⟨1, 2, true, "FREQ=DAILY", some 0, "x", some 0, none, none,
         none⟩ =
      ⟨1, 2, true, "FREQ=DAILY", some 0, "x", some 86400, none, none,
       none⟩ := by
  refine ⟨rfl, by decide, ?_⟩
  exact acknowledge_transition_characterisation.1 0 ⟨30000, 0⟩
    ⟨1, 2, true, "FREQ=DAILY", some 0, "x", some 0, none, none, none⟩
    0 ⟨86400, 0⟩ rfl (by decide) rfl

/-- Claim C10: a reminder whose `remind_at` is null is never returned by
the pending-reminder query; and `CreateReminder` produces exactly such a
row (null `remind_at`, disabled) when the recurrence rule has no future
occurrence — here `FREQ=DAILY;COUNT=1` with an anchor already elapsed. -/
theorem null_remind_at_never_pending :
    (∀ (untilT : Int) (rows : List ReminderRow) (r : ReminderRow),
        r.remindAt = none → r ∉ getPendingReminders untilT rows) ∧
    (createReminder 0 ⟨100000, 0⟩ 1 "water plants" (some ⟨0, 0⟩)
        "FREQ=DAILY;COUNT=1").remindAt = none ∧
    (createReminder 0 ⟨100000, 0⟩ 1 "water plants" (some ⟨0, 0⟩)
        "FREQ=DAILY;COUNT=1").enabled = false := by
  refine ⟨?_, rfl, rfl⟩
  intro untilT rows r hr hmem
  unfold getPendingReminders at hmem
  rw [List.mem_filter] at hmem
  obtain ⟨-, hp⟩ := hmem
  unfold reminderPending at hp
  rw [hr] at hp
  simp at hp

/-- Witness for C10: the disabled, `remind_at`-less reminder built by
`CreateReminder` from an exhausted rule is not in its own table's
pending set. -/
theorem null_remind_at_never_pending_witness :
    (createReminder 0 ⟨100000, 0⟩ 1 "water plants" (some ⟨0, 0⟩)
        "FREQ=DAILY;COUNT=1").remindAt = none ∧
    createReminder 0 ⟨100000, 0⟩ 1 "water plants" (some ⟨0, 0⟩)
        "FREQ=DAILY;COUNT=1" ∉
      getPendingReminders 100000
        [createReminder 0 ⟨100000, 0⟩ 1 "water plants" (some ⟨0, 0⟩)
          "FREQ=DAILY;COUNT=1"] := by
  refine ⟨rfl, ?_⟩
  exact null_remind_at_never_pending.1 100000 _ _ rfl

/-- Claim C6: for a todo with a due time whose urgency zone has a
positive base interval, `shouldNotifyTodo` buckets time-to-due into
overdue (negative) / urgent (under 2 h) / soon (under 24 h) / normal
(under 7 d), with 7 days or more excluded; the effective interval is the
base interval times the priority multiplier (5 → 0.5, 4 → 0.7, 3 → 1.0,
2 → 1.5, 1 → 2.0, computed in binary64 and truncated), floored at one
minute; and the todo is eligible exactly when `last_notified_at` is null
or `now - last_notified_at` reaches that interval.  The closing
conjuncts are the spec's example: urgent base 30, priority 5 → 15
minutes, priority 1 → 60 minutes, with the one-minute floor visible at
base 1, priority 5. -/
theorem todo_backoff_characterisation :
    (∀ (now : Int) (todo : TodoRow) (zone : String) (base : Int),
        0 < base →
        todoEligibleWithBase now todo zone base =
          ((todo.lastNotifiedAt.isNone ||
              match todo.lastNotifiedAt with
              | none => true
              | some last =>
                decide ((intervalMinutes base todo.priority : Int) * 60 ≤
                  now - last)),
           zone)) ∧
    (∀ (now : Int) (todo : TodoRow) (zone : String) (base : Int),
        base ≤ 0 → todoEligibleWithBase now todo zone base = (false, "")) ∧
    (∀ (now : Int) (todo : TodoRow) (ri : ReminderIntervals) (due : Int),
        todo.dueTime = some due →
        (due - now < 0 →
          shouldNotifyTodo now todo ri =
            todoEligibleWithBase now todo "overdue" ri.overdue) ∧
        (0 ≤ due - now → due - now < 7200 →
          shouldNotifyTodo now todo ri =
            todoEligibleWithBase now todo "urgent" ri.urgent) ∧
        (7200 ≤ due - now → due - now < 86400 →
          shouldNotifyTodo now todo ri =
            todoEligibleWithBase now todo "soon" ri.soon) ∧
        (86400 ≤ due - now → due - now < 604800 →
          shouldNotifyTodo now todo ri =
            todoEligibleWithBase now todo "normal" ri.normal) ∧
        (604800 ≤ due - now →
          shouldNotifyTodo now todo ri = (false, ""))) ∧
    (∀ (now : Int) (todo : TodoRow) (ri : ReminderIntervals),
        todo.dueTime = none → shouldNotifyTodo now todo ri = (false, "")) ∧
    intervalMinutes 30 5 = 15 ∧
    intervalMinutes 30 1 = 60 ∧
    intervalMinutes 1 5 = 1 ∧
    shouldNotifyTodo 0 ⟨1, 1, "t", 5, some 3600, none, some (-900)⟩
        ⟨30, 30, 120, 480⟩ = (true, "urgent") ∧
    shouldNotifyTodo 0 ⟨1, 1, "t", 5, some 3600, none, some (-899)⟩
        ⟨30, 30, 120, 480⟩ = (false, "urgent") ∧
    shouldNotifyTodo 0 ⟨1, 1, "t", 1, some 3600, none, some (-3600)⟩
        ⟨30, 30, 120, 480⟩ = (true, "urgent") ∧
    shouldNotifyTodo 0 ⟨1, 1, "t", 1, some 3600, none, some (-3599)⟩
        ⟨30, 30, 120, 480⟩ = (false, "urgent") := by
  refine ⟨?_, ?_, ?_, ?_, rfl, rfl, rfl, rfl, rfl, rfl, rfl⟩
  · intro now todo zone base hpos
    unfold todoEligibleWithBase
    rw [if_neg (by omega)]
    rcases todo.lastNotifiedAt with _ | last <;> simp
  · intro now todo zone base hle
    unfold todoEligibleWithBase
    rw [if_pos hle]
  · intro now todo ri due hdue
    refine ⟨?_, ?_, ?_, ?_, ?_⟩ <;> intros <;>
      simp only [shouldNotifyTodo, hdue]
    · rw [if_pos (by omega)]
    · rw [if_neg (by omega), if_pos (by omega)]
    · rw [if_neg (by omega), if_neg (by omega), if_pos (by omega)]
    · rw [if_neg (by omega), if_neg (by omega), if_neg (by omega),
        if_pos (by omega)]
    · rw [if_neg (by omega), if_neg (by omega), if_neg (by omega),
        if_neg (by omega)]
  · intro now todo ri hnone
    unfold shouldNotifyTodo
    rw [hnone]

/-- Witness for C6: the urgent bucket conjunct applied to a priority-5
todo due in one hour with urgent base 30. -/
theorem todo_backoff_characterisation_witness :
    ((⟨1, 1, "t", 5, some 3600, none, some (-900)⟩ : TodoRow).dueTime =
      some 3600) ∧
    shouldNotifyTodo 0 ⟨1, 1, "t", 5, some 3600, none, some (-900)⟩
        ⟨30, 30, 120, 480⟩ =
      todoEligibleWithBase 0 ⟨1, 1, "t", 5, some 3600, none, some (-900)⟩
        "urgent" 30 := by
  refine ⟨rfl, ?_⟩
  exact ((todo_backoff_characterisation.2.2.1 0
    ⟨1, 1, "t", 5, some 3600, none, some (-900)⟩
    ⟨30, 30, 120, 480⟩ 3600 rfl).2.1 (by decide) (by decide))

/-- Claim C7: when the quiet window's start time-of-day is strictly
later than its end (wrapping midnight), `IsQuietHours` holds exactly
when the local time-of-day is at or after the start or strictly before
the end; for the window 22:00-08:00, 23:30 and 07:30 are quiet and 12:00
is not. -/
theorem quiet_hours_wrap_characterisation :
    (∀ (tzOff : Int) (qs qe : String) (t : GoTime),
        (parseTimeString qe).1 * 60 + (parseTimeString qe).2 <
          (parseTimeString qs).1 * 60 + (parseTimeString qs).2 →
        (IsQuietHours tzOff qs qe t = true ↔
          ((parseTimeString qs).1 * 60 + (parseTimeString qs).2 ≤
              minutesOfDay (t.inZone tzOff).wall ∨
            minutesOfDay (t.inZone tzOff).wall <
              (parseTimeString qe).1 * 60 + (parseTimeString qe).2))) ∧
    IsQuietHours 0 "22:00" "08:00" ⟨84600, 0⟩ = true ∧
    IsQuietHours 0 "22:00" "08:00" ⟨27000, 0⟩ = true ∧
    IsQuietHours 0 "22:00" "08:00" ⟨43200, 0⟩ = false := by
  refine ⟨?_, rfl, rfl, rfl⟩
  intro tzOff qs qe t hwrap
  unfold IsQuietHours
  rw [if_pos hwrap]
  simp

/-- Witness for C7: the wrap characterisation applied to the
22:00-08:00 window at local 23:30. -/
theorem quiet_hours_wrap_characterisation_witness :
    ((parseTimeString "08:00").1 * 60 + (parseTimeString "08:00").2 <
      (parseTimeString "22:00").1 * 60 + (parseTimeString "22:00").2) ∧
    (IsQuietHours 0 "22:00" "08:00" ⟨84600, 0⟩ = true ↔
      ((parseTimeString "22:00").1 * 60 + (parseTimeString "22:00").2 ≤
          minutesOfDay ((⟨84600, 0⟩ : GoTime).inZone 0).wall ∨
        minutesOfDay ((⟨84600, 0⟩ : GoTime).inZone 0).wall <
          (parseTimeString "08:00").1 * 60 + (parseTimeString "08:00").2)) := by
  refine ⟨by decide, ?_⟩
  exact quiet_hours_wrap_characterisation.1 0 "22:00" "08:00" ⟨84600, 0⟩
    (by decide)

/-- Claim C3: for every reminder, the pending-reminder query at time `now`
returns the reminder exactly when `enabled` is true, `remind_at` is at or
before `now`, `acknowledged_at` is null, and either `notified_at` is null
or `notified_at` is at least one minute (the cooldown) before `now`. -/
theorem pending_reminder_query_characterisation
    (now : Int) (rows : List ReminderRow) (r : ReminderRow) :
    r ∈ getPendingReminders now rows ↔
      r ∈ rows ∧
      r.enabled = true ∧
      (∃ ra, r.remindAt = some ra ∧ ra ≤ now) ∧
      r.acknowledgedAt = none ∧
      (r.notifiedAt = none ∨ ∃ na, r.notifiedAt = some na ∧ 60 ≤ now - na) := by
  unfold getPendingReminders
  rw [List.mem_filter]
  constructor
  · rintro ⟨hmem, hp⟩
    refine ⟨hmem, ?_⟩
    unfold reminderPending at hp
    rcases hra : r.remindAt with _ | ra <;> rw [hra] at hp <;>
      rcases hna : r.notifiedAt with _ | na <;> rw [hna] at hp <;>
      (simp_all [Option.isNone_iff_eq_none]; try omega)
  · rintro ⟨hmem, hen, ⟨ra, hra, hle⟩, hack, hnot⟩
    refine ⟨hmem, ?_⟩
    unfold reminderPending
    rw [hra, hen, hack]
    rcases hnot with hnone | ⟨na, hna, hcool⟩
    · rw [hnone]; simp [hle]
    · rw [hna]; simp [hle]; omega

end LifeLine
